import Mathlib

/-!
Verification of the embedded-services Type-C power-capability derivation
engine (src/embedded-service/src/type_c/mod.rs) and of the endpoint
message bus described in the specification.

Field widths follow the Rust source: PDO current and voltage fields are
`u16`, power fields (`max_power_mw`, `operational_power_mw`, `pdp_mw`)
are `u32`, and `PowerCapability.current_ma` is `u16` (the source narrows
the 32-bit quotient with an `as u16` cast, modelled here by `% 65536`).
Machine integers are modelled as `Nat`; value-range side conditions are
stated as hypotheses where they matter.  A Rust `u32` division by zero
panics, so the conversions that divide are modelled as `Option`-valued,
returning `none` exactly on the panic branch.
-/

/-- Normalized power capability (`policy::PowerCapability`): one
`(voltage_mv, current_ma)` operating point. -/
structure PowerCapability where
  voltage_mv : Nat
  current_ma : Nat
deriving DecidableEq, Repr

namespace source

/-- Source Fixed PDO data (fields used by the source: `voltage_mv`, `current_ma`, both u16). -/
structure FixedData where
  voltage_mv : Nat
  current_ma : Nat
deriving DecidableEq, Repr

/-- Source Variable PDO data. -/
structure VariableData where
  max_voltage_mv : Nat
  max_current_ma : Nat
deriving DecidableEq, Repr

/-- Source Battery PDO data: `max_voltage_mv` is u16, `max_power_mw` is u32. -/
structure BatteryData where
  max_voltage_mv : Nat
  max_power_mw : Nat
deriving DecidableEq, Repr

/-- Source SPR-PPS augmented PDO data. -/
structure SprPpsData where
  max_voltage_mv : Nat
  max_current_ma : Nat
deriving DecidableEq, Repr

/-- Source EPR-AVS augmented PDO data: `max_voltage_mv` is u16, `pdp_mw` is u32. -/
structure EprAvsData where
  max_voltage_mv : Nat
  pdp_mw : Nat
deriving DecidableEq, Repr

/-- SPR-AVS augmented PDO data: two u16 maximum currents, one per rail. -/
structure SprAvsData where
  max_current_15v_ma : Nat
  max_current_20v_ma : Nat
deriving DecidableEq, Repr

/-- Source augmented PDO (`source::Apdo`). -/
inductive Apdo
  | SprPps (data : SprPpsData)
  | EprAvs (data : EprAvsData)
  | SprAvs (data : SprAvsData)
deriving DecidableEq, Repr

/-- Source PDO (`source::Pdo`). -/
inductive Pdo
  | Fixed (data : FixedData)
  | Variable (data : VariableData)
  | Battery (data : BatteryData)
  | Augmented (apdo : Apdo)
deriving DecidableEq, Repr

end source

namespace sink

/-- Sink Fixed PDO data. -/
structure FixedData where
  voltage_mv : Nat
  operational_current_ma : Nat
deriving DecidableEq, Repr

/-- Sink Variable PDO data. -/
structure VariableData where
  max_voltage_mv : Nat
  operational_current_ma : Nat
deriving DecidableEq, Repr

/-- Sink Battery PDO data: `max_voltage_mv` is u16, `operational_power_mw` is u32. -/
structure BatteryData where
  max_voltage_mv : Nat
  operational_power_mw : Nat
deriving DecidableEq, Repr

/-- Sink SPR-PPS augmented PDO data. -/
structure SprPpsData where
  max_voltage_mv : Nat
  max_current_ma : Nat
deriving DecidableEq, Repr

/-- Sink EPR-AVS augmented PDO data. -/
structure EprAvsData where
  max_voltage_mv : Nat
  pdp_mw : Nat
deriving DecidableEq, Repr

/-- Sink SPR-AVS augmented PDO data. -/
structure SprAvsData where
  max_current_15v_ma : Nat
  max_current_20v_ma : Nat
deriving DecidableEq, Repr

/-- Sink augmented PDO (`sink::Apdo`). -/
inductive Apdo
  | SprPps (data : SprPpsData)
  | EprAvs (data : EprAvsData)
  | SprAvs (data : SprAvsData)
deriving DecidableEq, Repr

/-- Sink PDO (`sink::Pdo`). -/
inductive Pdo
  | Fixed (data : FixedData)
  | Variable (data : VariableData)
  | Battery (data : BatteryData)
  | Augmented (apdo : Apdo)
deriving DecidableEq, Repr

end sink

/-- `spr_avs_max_power_capability`: maximum power capability for an SPR-AVS
PDO.  The source multiplies in `u32` (`max_current_15v_ma as u32 * 15000`);
for u16 inputs the products are below `2^32`, so plain `Nat` multiplication
is exact. -/
def spr_avs_max_power_capability (max_current_15v_ma max_current_20v_ma : Nat) :
    PowerCapability :=
  if max_current_15v_ma * 15000 > max_current_20v_ma * 20000 then
    { voltage_mv := 15000, current_ma := max_current_15v_ma }
  else
    { voltage_mv := 20000, current_ma := max_current_20v_ma }

/-- `From<source::Pdo> for PowerCapability`.  The Battery and EPR-AVS arms
divide by `max_voltage_mv` in `u32` (panic when it is zero, modelled as
`none`) and narrow the quotient with `as u16` (modelled as `% 65536`). -/
def fromSourcePdo : source.Pdo → Option PowerCapability
  | .Fixed data => some { voltage_mv := data.voltage_mv, current_ma := data.current_ma }
  | .Variable data =>
      some { voltage_mv := data.max_voltage_mv, current_ma := data.max_current_ma }
  | .Battery data =>
      if data.max_voltage_mv = 0 then none
      else some { voltage_mv := data.max_voltage_mv,
                  current_ma := data.max_power_mw / data.max_voltage_mv % 65536 }
  | .Augmented (.SprPps data) =>
      some { voltage_mv := data.max_voltage_mv, current_ma := data.max_current_ma }
  | .Augmented (.EprAvs data) =>
      if data.max_voltage_mv = 0 then none
      else some { voltage_mv := data.max_voltage_mv,
                  current_ma := data.pdp_mw / data.max_voltage_mv % 65536 }
  | .Augmented (.SprAvs data) =>
      some (spr_avs_max_power_capability data.max_current_15v_ma data.max_current_20v_ma)

/-- `From<sink::Pdo> for PowerCapability`. -/
def fromSinkPdo : sink.Pdo → Option PowerCapability
  | .Fixed data =>
      some { voltage_mv := data.voltage_mv, current_ma := data.operational_current_ma }
  | .Variable data =>
      some { voltage_mv := data.max_voltage_mv, current_ma := data.operational_current_ma }
  | .Battery data =>
      if data.max_voltage_mv = 0 then none
      else some { voltage_mv := data.max_voltage_mv,
                  current_ma := data.operational_power_mw / data.max_voltage_mv % 65536 }
  | .Augmented (.SprPps data) =>
      some { voltage_mv := data.max_voltage_mv, current_ma := data.max_current_ma }
  | .Augmented (.EprAvs data) =>
      if data.max_voltage_mv = 0 then none
      else some { voltage_mv := data.max_voltage_mv,
                  current_ma := data.pdp_mw / data.max_voltage_mv % 65536 }
  | .Augmented (.SprAvs data) =>
      some (spr_avs_max_power_capability data.max_current_15v_ma data.max_current_20v_ma)

/-- Type-C default-current class (`type_c::Current` from the external
`embedded_usb_pd` crate): USB default / 1.5 A / 3.0 A. -/
inductive Current
  | UsbDefault
  | OneA5
  | ThreeA0
deriving DecidableEq, Repr

/-- `From<type_c::Current> for PowerCapability`.  The conversion `to_ma`
lives in the external `embedded_usb_pd` crate, so it is a parameter here;
the source passes the conservative flag `true` ("Assume lower power for
now"). -/
def fromTypeCCurrent (to_ma : Current → Bool → Nat) (current : Current) : PowerCapability :=
  { voltage_mv := 5000, current_ma := to_ma current true }

/-- Well-formedness of a source PDO as assumed by the spec: the voltage
used as a divisor is non-zero. -/
def source.Pdo.wf : source.Pdo → Bool
  | .Battery data => data.max_voltage_mv != 0
  | .Augmented (.EprAvs data) => data.max_voltage_mv != 0
  | _ => true

/-- Well-formedness of a sink PDO: divisor voltages are non-zero. -/
def sink.Pdo.wf : sink.Pdo → Bool
  | .Battery data => data.max_voltage_mv != 0
  | .Augmented (.EprAvs data) => data.max_voltage_mv != 0
  | _ => true

/-- Modelled from the spec: internal subsystem tags of endpoint addresses
(the transport module of the embedded-services crate is not in the source
tree; only its caller, examples/rt685s-evk/src/bin/power_button.rs, is).
The caller uses `Endpoint::Internal(Internal::Power)`. -/
inductive InternalTag
  | Power
  | Usbc
deriving DecidableEq, Repr

/-- Modelled from the spec: off-chip tags of endpoint addresses. -/
inductive OffchipTag
  | Host
deriving DecidableEq, Repr

/-- Modelled from the spec: an endpoint address is a tagged value, either
an internal subsystem tag or an external/off-chip tag; the set of valid
tags is fixed at build time. -/
inductive Endpoint
  | internal (tag : InternalTag)
  | offchip (tag : OffchipTag)
deriving DecidableEq, Repr

/-- Modelled from the spec: the bus error taxonomy. -/
inductive BusError
  | AlreadyRegistered
  | AddressMismatch
  | UnknownDestination
deriving DecidableEq, Repr

/-- Modelled from the spec: the result of a bus operation
(`Result<(), BusError>`). -/
inductive BusResult
  | ok
  | err (e : BusError)
deriving DecidableEq, Repr

/-- Handler reference: an abstract identity for a registered message
handler (the `MessageDelegate` reference of the missing transport module). -/
abbrev Handler := Nat

/-- Message payload: the type-tagged opaque value carried by a message,
abstracted to its identity. -/
abbrev Payload := Nat

/-- Modelled from the spec: `Message{destination, payload}`, constructed by
the sender and read-only to the bus and the handler. -/
structure Message where
  destination : Endpoint
  payload : Payload
deriving DecidableEq, Repr

/-- Modelled from the spec: per-link registration state,
`Uninitialized -> Registered`, one-way. -/
inductive LinkState
  | Uninitialized
  | Registered
deriving DecidableEq, Repr

/-- Modelled from the spec: an `EndpointLink` is bound to exactly one
endpoint address and starts uninitialized. -/
structure EndpointLink where
  addr : Endpoint
  state : LinkState
deriving DecidableEq, Repr

/-- Modelled from the spec: the process-wide registry mapping endpoint
addresses to handler references, at most one handler per address. -/
abbrev Registry := List (Endpoint × Handler)

/-- Lookup of an endpoint address in the registry. -/
def Registry.lookup : Registry → Endpoint → Option Handler
  | [], _ => none
  | (b, h) :: rest, a => if b = a then some h else Registry.lookup rest a

/-- Modelled from the spec: `register(endpoint_address, handler_reference,
link)` of the missing transport module.  Fails with `AlreadyRegistered` if
the address is occupied, with `AddressMismatch` if the link is bound to a
different address; otherwise inserts the mapping and marks the link
registered.  Errors leave the registry and the link unchanged. -/
def register (addr : Endpoint) (h : Handler) (link : EndpointLink) (reg : Registry) :
    BusResult × Registry × EndpointLink :=
  match Registry.lookup reg addr with
  | some _ => (.err .AlreadyRegistered, reg, link)
  | none =>
      if link.addr = addr then
        (.ok, (addr, h) :: reg, { link with state := .Registered })
      else
        (.err .AddressMismatch, reg, link)

/-- A dispatch event: the bus invoked handler `h` with message `m`. -/
inductive Event
  | invoked (h : Handler) (m : Message)
deriving DecidableEq, Repr

/-- Modelled from the spec: `send(destination, payload)` of the missing
transport module.  Looks up the destination; if absent, fails with
`UnknownDestination` (no handler invoked); otherwise invokes the registered
handler synchronously with `Message{destination, payload}` and returns
success.  The returned event list is the trace of handler invocations. -/
def send (dest : Endpoint) (p : Payload) (reg : Registry) : BusResult × List Event :=
  match Registry.lookup reg dest with
  | none => (.err .UnknownDestination, [])
  | some h => (.ok, [.invoked h { destination := dest, payload := p }])

/-- Claim C1: for every SPR-AVS PDO with u16 current fields, source or
sink, derive returns `(15000, max_current_15v_ma)` when
`max_current_15v_ma * 15000 > max_current_20v_ma * 20000` and otherwise
`(20000, max_current_20v_ma)`; in particular a tie picks the 20 V rail,
and the rule is the same for source and sink. -/
theorem spr_avs_rule (ma15 ma20 : Nat) (h15 : ma15 < 65536) (h20 : ma20 < 65536) :
    fromSourcePdo (.Augmented (.SprAvs ⟨ma15, ma20⟩)) =
      some (if ma15 * 15000 > ma20 * 20000 then
              { voltage_mv := 15000, current_ma := ma15 }
            else
              { voltage_mv := 20000, current_ma := ma20 }) ∧
    fromSinkPdo (.Augmented (.SprAvs ⟨ma15, ma20⟩)) =
      some (if ma15 * 15000 > ma20 * 20000 then
              { voltage_mv := 15000, current_ma := ma15 }
            else
              { voltage_mv := 20000, current_ma := ma20 }) ∧
    (ma15 * 15000 = ma20 * 20000 →
      fromSourcePdo (.Augmented (.SprAvs ⟨ma15, ma20⟩)) =
        some { voltage_mv := 20000, current_ma := ma20 } ∧
      fromSinkPdo (.Augmented (.SprAvs ⟨ma15, ma20⟩)) =
        some { voltage_mv := 20000, current_ma := ma20 }) := by
  refine ⟨rfl, rfl, fun heq => ?_⟩
  have hnlt : ¬ ma20 * 20000 < ma15 * 15000 := by omega
  constructor <;>
    simp [fromSourcePdo, fromSinkPdo, spr_avs_max_power_capability, hnlt]

/-- Witness for C1: the spec's concrete cases, `(2000, 1000)` picking the
15 V rail and the tie `(4000, 3000)` picking the 20 V rail. -/
theorem spr_avs_rule_witness :
    ((4000 : Nat) < 65536 ∧ (3000 : Nat) < 65536 ∧
      (4000 : Nat) * 15000 = 3000 * 20000 ∧
      fromSourcePdo (.Augmented (.SprAvs ⟨4000, 3000⟩)) =
        some { voltage_mv := 20000, current_ma := 3000 } ∧
      fromSinkPdo (.Augmented (.SprAvs ⟨4000, 3000⟩)) =
        some { voltage_mv := 20000, current_ma := 3000 }) ∧
    fromSourcePdo (.Augmented (.SprAvs ⟨2000, 1000⟩)) =
      some { voltage_mv := 15000, current_ma := 2000 } := by
  refine ⟨⟨by decide, by decide, by decide, ?_⟩, by decide⟩
  have h := (spr_avs_rule 4000 3000 (by decide) (by decide)).2.2 (by decide)
  exact h

/-- Counterexample for C2: for the source Battery PDO with
`max_voltage_mv = 1` and `max_power_mw = 65536` the truncating division
gives 65536, but the code returns `current_ma = 0` because of the `as u16`
narrowing, so the claim as stated fails. -/
theorem battery_division_counterexample :
    fromSourcePdo (source.Pdo.Battery ⟨1, 65536⟩) =
      some { voltage_mv := 1, current_ma := 0 } ∧
    (65536 : Nat) / 1 = 65536 ∧
    fromSourcePdo (source.Pdo.Battery ⟨1, 65536⟩) ≠
      some { voltage_mv := 1, current_ma := 65536 / 1 } := by
  decide

/-- Claim C2 (amended): for every Battery PDO with non-zero
`max_voltage_mv`, derive returns `voltage_mv = max_voltage_mv` and
`current_ma = (power_mw / max_voltage_mv) % 2^16` — the truncating
division reduced modulo 2^16, using `max_power_mw` for source and
`operational_power_mw` for sink; this equals the plain quotient whenever
the quotient is below 2^16. -/
theorem battery_derivation (v pmax pop : Nat) (hv : v ≠ 0) :
    fromSourcePdo (source.Pdo.Battery ⟨v, pmax⟩) =
      some { voltage_mv := v, current_ma := pmax / v % 65536 } ∧
    fromSinkPdo (sink.Pdo.Battery ⟨v, pop⟩) =
      some { voltage_mv := v, current_ma := pop / v % 65536 } := by
  constructor <;> simp [fromSourcePdo, fromSinkPdo, hv]

/-- Witness for C2: the spec's example `max_voltage_mv = 20000`,
`max_power_mw = 100000` gives `current_ma = 5000`. -/
theorem battery_derivation_witness :
    (20000 : Nat) ≠ 0 ∧
    (fromSourcePdo (source.Pdo.Battery ⟨20000, 100000⟩) =
        some { voltage_mv := 20000, current_ma := 100000 / 20000 % 65536 } ∧
      fromSinkPdo (sink.Pdo.Battery ⟨20000, 60000⟩) =
        some { voltage_mv := 20000, current_ma := 60000 / 20000 % 65536 }) :=
  ⟨by decide, battery_derivation 20000 100000 60000 (by decide)⟩

/-- Counterexample for C3: for the source EPR-AVS PDO with
`max_voltage_mv = 1` and `pdp_mw = 65536` the truncating division gives
65536, but the code returns `current_ma = 0` because of the `as u16`
narrowing, so the claim as stated fails. -/
theorem epr_avs_division_counterexample :
    fromSourcePdo (.Augmented (.EprAvs ⟨1, 65536⟩)) =
      some { voltage_mv := 1, current_ma := 0 } ∧
    (65536 : Nat) / 1 = 65536 ∧
    fromSourcePdo (.Augmented (.EprAvs ⟨1, 65536⟩)) ≠
      some { voltage_mv := 1, current_ma := 65536 / 1 } := by
  decide

/-- Claim C3 (amended): for every EPR-AVS PDO with non-zero
`max_voltage_mv`, source or sink, derive returns
`voltage_mv = max_voltage_mv` and
`current_ma = (pdp_mw / max_voltage_mv) % 2^16`, the same formula for both
variants; this equals the plain quotient whenever it is below 2^16. -/
theorem epr_avs_derivation (v psrc psnk : Nat) (hv : v ≠ 0) :
    fromSourcePdo (.Augmented (.EprAvs ⟨v, psrc⟩)) =
      some { voltage_mv := v, current_ma := psrc / v % 65536 } ∧
    fromSinkPdo (.Augmented (.EprAvs ⟨v, psnk⟩)) =
      some { voltage_mv := v, current_ma := psnk / v % 65536 } := by
  constructor <;> simp [fromSourcePdo, fromSinkPdo, hv]

/-- Witness for C3: `max_voltage_mv = 20000`, `pdp_mw = 140000` gives
`current_ma = 7`. -/
theorem epr_avs_derivation_witness :
    (20000 : Nat) ≠ 0 ∧
    (fromSourcePdo (.Augmented (.EprAvs ⟨20000, 140000⟩)) =
        some { voltage_mv := 20000, current_ma := 140000 / 20000 % 65536 } ∧
      fromSinkPdo (.Augmented (.EprAvs ⟨20000, 140000⟩)) =
        some { voltage_mv := 20000, current_ma := 140000 / 20000 % 65536 }) :=
  ⟨by decide, epr_avs_derivation 20000 140000 140000 (by decide)⟩

/-- Claim C4: derive is total under the precondition that divisor voltages
are non-zero — every well-formed source and sink PDO maps to some
capability (the division-by-zero panic branches are unreachable), and the
Type-C default-current conversion is total by construction. -/
theorem derive_total (p : source.Pdo) (q : sink.Pdo)
    (hp : p.wf = true) (hq : q.wf = true) :
    (fromSourcePdo p).isSome ∧ (fromSinkPdo q).isSome := by
  constructor
  · cases p with
    | Fixed data => rfl
    | Variable data => rfl
    | Battery data =>
        simp only [source.Pdo.wf, bne_iff_ne, ne_eq] at hp
        simp [fromSourcePdo, hp]
    | Augmented apdo =>
        cases apdo with
        | SprPps data => rfl
        | EprAvs data =>
            simp only [source.Pdo.wf, bne_iff_ne, ne_eq] at hp
            simp [fromSourcePdo, hp]
        | SprAvs data => rfl
  · cases q with
    | Fixed data => rfl
    | Variable data => rfl
    | Battery data =>
        simp only [sink.Pdo.wf, bne_iff_ne, ne_eq] at hq
        simp [fromSinkPdo, hq]
    | Augmented apdo =>
        cases apdo with
        | SprPps data => rfl
        | EprAvs data =>
            simp only [sink.Pdo.wf, bne_iff_ne, ne_eq] at hq
            simp [fromSinkPdo, hq]
        | SprAvs data => rfl

/-- Witness for C4: well-formed Battery PDOs on both sides map to some
capability. -/
theorem derive_total_witness :
    (source.Pdo.Battery ⟨20000, 100000⟩).wf = true ∧
    (sink.Pdo.Battery ⟨5000, 45000⟩).wf = true ∧
    ((fromSourcePdo (source.Pdo.Battery ⟨20000, 100000⟩)).isSome ∧
      (fromSinkPdo (sink.Pdo.Battery ⟨5000, 45000⟩)).isSome) :=
  ⟨by decide, by decide,
    derive_total (source.Pdo.Battery ⟨20000, 100000⟩) (sink.Pdo.Battery ⟨5000, 45000⟩)
      (by decide) (by decide)⟩

/-- Claim C5: when an address already has a registered handler, a second
`register` for that address fails with `AlreadyRegistered` and leaves the
registry and the link unchanged — the first registration stays intact. -/
theorem register_duplicate (reg : Registry) (addr : Endpoint) (h0 h1 : Handler)
    (link : EndpointLink) (hocc : Registry.lookup reg addr = some h0) :
    register addr h1 link reg = (.err .AlreadyRegistered, reg, link) ∧
    Registry.lookup (register addr h1 link reg).2.1 addr = some h0 := by
  have heq : register addr h1 link reg = (.err .AlreadyRegistered, reg, link) := by
    unfold register
    rw [hocc]
  exact ⟨heq, by rw [heq]; exact hocc⟩

/-- Witness for C5: re-registering the Power endpoint fails and the first
handler is still registered. -/
theorem register_duplicate_witness :
    Registry.lookup [(Endpoint.internal .Power, 7)] (Endpoint.internal .Power) = some 7 ∧
    (register (Endpoint.internal .Power) 9 ⟨Endpoint.internal .Power, .Uninitialized⟩
        [(Endpoint.internal .Power, 7)] =
      (.err .AlreadyRegistered, [(Endpoint.internal .Power, 7)],
        ⟨Endpoint.internal .Power, .Uninitialized⟩) ∧
      Registry.lookup
        (register (Endpoint.internal .Power) 9 ⟨Endpoint.internal .Power, .Uninitialized⟩
          [(Endpoint.internal .Power, 7)]).2.1 (Endpoint.internal .Power) = some 7) :=
  ⟨by decide,
    register_duplicate [(Endpoint.internal .Power, 7)] (Endpoint.internal .Power) 7 9
      ⟨Endpoint.internal .Power, .Uninitialized⟩ (by decide)⟩

/-- Claim C6: `send` to an address with no registered handler fails with
`UnknownDestination`, invokes no handler (empty event trace), and the
failure is returned to the caller. -/
theorem send_unknown_destination (reg : Registry) (dest : Endpoint) (p : Payload)
    (habs : Registry.lookup reg dest = none) :
    send dest p reg = (.err .UnknownDestination, []) := by
  unfold send
  rw [habs]

/-- Witness for C6: sending to the unregistered Usbc endpoint fails with
no handler invocation. -/
theorem send_unknown_destination_witness :
    Registry.lookup [(Endpoint.internal .Power, 7)] (Endpoint.internal .Usbc) = none ∧
    send (Endpoint.internal .Usbc) 42 [(Endpoint.internal .Power, 7)] =
      (.err .UnknownDestination, []) :=
  ⟨by decide,
    send_unknown_destination [(Endpoint.internal .Power, 7)] (Endpoint.internal .Usbc) 42
      (by decide)⟩

/-- Claim C7: `send` to an address whose registered handler is `h` invokes
`h` exactly once (singleton event trace) with a `Message` whose
destination and payload are exactly those passed to the call, then returns
success. -/
theorem send_delivers (reg : Registry) (dest : Endpoint) (h : Handler) (p : Payload)
    (hreg : Registry.lookup reg dest = some h) :
    send dest p reg = (.ok, [.invoked h { destination := dest, payload := p }]) := by
  unfold send
  rw [hreg]

/-- Witness for C7: sending payload 42 to the registered Power endpoint
invokes handler 7 once with that payload. -/
theorem send_delivers_witness :
    Registry.lookup [(Endpoint.internal .Power, 7)] (Endpoint.internal .Power) = some 7 ∧
    send (Endpoint.internal .Power) 42 [(Endpoint.internal .Power, 7)] =
      (.ok, [.invoked 7 { destination := Endpoint.internal .Power, payload := 42 }]) :=
  ⟨by decide,
    send_delivers [(Endpoint.internal .Power, 7)] (Endpoint.internal .Power) 7 42
      (by decide)⟩

/-- Claim C8: Fixed, Variable, and SPR-PPS PDOs pass the advertised
voltage and the applicable current field through unchanged, on both the
source and the sink side. -/
theorem passthrough_variants (a : source.FixedData) (b : source.VariableData)
    (c : source.SprPpsData) (d : sink.FixedData) (e : sink.VariableData)
    (f : sink.SprPpsData) :
    fromSourcePdo (.Fixed a) =
      some { voltage_mv := a.voltage_mv, current_ma := a.current_ma } ∧
    fromSourcePdo (.Variable b) =
      some { voltage_mv := b.max_voltage_mv, current_ma := b.max_current_ma } ∧
    fromSourcePdo (.Augmented (.SprPps c)) =
      some { voltage_mv := c.max_voltage_mv, current_ma := c.max_current_ma } ∧
    fromSinkPdo (.Fixed d) =
      some { voltage_mv := d.voltage_mv, current_ma := d.operational_current_ma } ∧
    fromSinkPdo (.Variable e) =
      some { voltage_mv := e.max_voltage_mv, current_ma := e.operational_current_ma } ∧
    fromSinkPdo (.Augmented (.SprPps f)) =
      some { voltage_mv := f.max_voltage_mv, current_ma := f.max_current_ma } :=
  ⟨rfl, rfl, rfl, rfl, rfl, rfl⟩

/-- Claim C9: every Type-C default-current class maps to voltage 5000 mV
with the current obtained from the class by the conversion called with the
conservative flag set to `true`. -/
theorem type_c_default_current (to_ma : Current → Bool → Nat) (current : Current) :
    fromTypeCCurrent to_ma current =
      { voltage_mv := 5000, current_ma := to_ma current true } :=
  rfl

/-- Claim C10: in the Battery and EPR-AVS arms the 32-bit quotient is
narrowed to the 16-bit current field, so whenever the quotient
`power / voltage` is at least `2^16` the returned `current_ma` is the
quotient modulo `2^16`, which differs from the mathematical quotient. -/
theorem quotient_narrowing (v p : Nat) (hv : v ≠ 0) (h16 : v < 65536)
    (h32 : p < 4294967296) (hq : 65536 ≤ p / v) :
    fromSourcePdo (source.Pdo.Battery ⟨v, p⟩) =
      some { voltage_mv := v, current_ma := p / v % 65536 } ∧
    fromSourcePdo (.Augmented (.EprAvs ⟨v, p⟩)) =
      some { voltage_mv := v, current_ma := p / v % 65536 } ∧
    fromSinkPdo (sink.Pdo.Battery ⟨v, p⟩) =
      some { voltage_mv := v, current_ma := p / v % 65536 } ∧
    fromSinkPdo (.Augmented (.EprAvs ⟨v, p⟩)) =
      some { voltage_mv := v, current_ma := p / v % 65536 } ∧
    p / v % 65536 ≠ p / v := by
  have hmod : p / v % 65536 < 65536 := Nat.mod_lt _ (by norm_num)
  have hne : p / v % 65536 ≠ p / v := Nat.ne_of_lt (lt_of_lt_of_le hmod hq)
  refine ⟨?_, ?_, ?_, ?_, hne⟩ <;> simp [fromSourcePdo, fromSinkPdo, hv]

/-- Witness for C10: at `v = 1`, `p = 65536` the quotient is 65536 and the
returned current is 0. -/
theorem quotient_narrowing_witness :
    (1 : Nat) ≠ 0 ∧ (1 : Nat) < 65536 ∧ (65536 : Nat) < 4294967296 ∧
    (65536 : Nat) ≤ 65536 / 1 ∧
    (fromSourcePdo (source.Pdo.Battery ⟨1, 65536⟩) =
        some { voltage_mv := 1, current_ma := 65536 / 1 % 65536 } ∧
      fromSourcePdo (.Augmented (.EprAvs ⟨1, 65536⟩)) =
        some { voltage_mv := 1, current_ma := 65536 / 1 % 65536 } ∧
      fromSinkPdo (sink.Pdo.Battery ⟨1, 65536⟩) =
        some { voltage_mv := 1, current_ma := 65536 / 1 % 65536 } ∧
      fromSinkPdo (.Augmented (.EprAvs ⟨1, 65536⟩)) =
        some { voltage_mv := 1, current_ma := 65536 / 1 % 65536 } ∧
      (65536 : Nat) / 1 % 65536 ≠ 65536 / 1) :=
  ⟨by decide, by decide, by decide, by decide,
    quotient_narrowing 1 65536 (by decide) (by decide) (by decide) (by decide)⟩
